import Mathlib

/-!
Verification of the p0tion phase2cli prompt layer
(`phase2cli/src/prompts/index.ts`).

The interactive builders are embedded as pure functions over the operator's
final answers.  An answer of `none` models an abandoned prompt (the `prompts`
library resolves the question with `undefined` in that case); an answer of
`some v` models a value the operator submitted, which the inline validator had
to accept before the library returned it.  A fatal `showError(err, true)` call,
which terminates the whole process, is embedded as `Except.error err`; a normal
return is `Except.ok`.

JavaScript comparison semantics matter on the abandoned-prompt paths:
`undefined < 0`, `undefined <= 0` and `undefined > 100` are all `false`
(NaN comparisons), and `!x` is true exactly for the falsy values (`undefined`,
the empty string, ...).  The helpers `jsLtNum`, `jsLeNum`, `jsGtNum` and
`jsFalsyStr` encode this.
-/

/-- The ceremony timeout mechanism enumeration (`CeremonyTimeoutType`). -/
inductive CeremonyTimeoutType
  | DYNAMIC
  | FIXED
deriving DecidableEq, Repr

/-- The fatal error taxonomy referenced by the prompt layer
(`GENERIC_ERRORS` keys used in the source file). -/
inductive GenericError
  | GENERIC_DATA_INPUT
  | GENERIC_CIRCUIT_SELECTION
  | GENERIC_CEREMONY_SELECTION
deriving DecidableEq, Repr

/-- JavaScript `a < b` where `a` may be `undefined`: `undefined < b` is false. -/
def jsLtNum (a : Option Int) (b : Int) : Bool :=
  match a with
  | none => false
  | some x => decide (x < b)

/-- JavaScript `a <= b` where `a` may be `undefined`: `undefined <= b` is false. -/
def jsLeNum (a : Option Int) (b : Int) : Bool :=
  match a with
  | none => false
  | some x => decide (x ≤ b)

/-- JavaScript `a > b` where `a` may be `undefined`: `undefined > b` is false. -/
def jsGtNum (a : Option Int) (b : Int) : Bool :=
  match a with
  | none => false
  | some x => decide (b < x)

/-- JavaScript falsiness of a possibly-undefined string: `undefined` and `""`
are falsy, every other string is truthy. -/
def jsFalsyStr (s : Option String) : Bool :=
  match s with
  | none => true
  | some t => t.isEmpty

/-- Character-level normalization used by the title-prefix extraction:
case-fold every letter and turn each maximal whitespace run into a single
hyphen.  The boolean argument records whether the previous character was
whitespace (so runs collapse). -/
def normalizeChars : Bool → List Char → List Char
  | _, [] => []
  | prevWs, c :: cs =>
    if c.isWhitespace then
      (if prevWs then [] else ['-']) ++ normalizeChars true cs
    else
      Char.toLower c :: normalizeChars false cs

/-- Modelled from the spec: the helper extracting a ceremony title prefix lives
in the CLI utils module, which is not among the sources here.  The spec
describes it as computing "a normalized prefix from `title` (case-folded,
whitespace-collapsed token form)", with the worked example that the title
"My Ceremony" normalizes to the prefix "my-ceremony". -/
def extractPrefix (title : String) : String :=
  String.mk (normalizeChars false title.toList)

/-- The uniqueness predicate of the spec: a title is unique when its
normalized prefix is not already among the known prefixes.  In the source this
is the `ceremoniesPrefixes.includes(extractPrefix(title))` duplicate check of
the title prompt, negated. -/
def isUniquePrefix (title : String) (knownPrefixes : List String) : Bool :=
  !(knownPrefixes.contains ( extractPrefix title))

/-- Inline validator of the `title` prompt: reject empty titles, reject titles
whose extracted prefix is already in use, accept otherwise. -/
def validateTitle (ceremoniesPrefixes : List String) (title : String) : Bool :=
  if title.length ≤ 0 then false
  else if ceremoniesPrefixes.contains ( extractPrefix title) then false
  else true

/-- Inline validator of the `description` prompts: the text must be non-empty. -/
def validateDescription (description : String) : Bool :=
  decide (0 < description.length)

/-- Inline validator of the `startDate` prompt:
`new Date(d).valueOf() > Date.now()`.  Instants are milliseconds since epoch. -/
def validateStartDate (d now : Int) : Bool :=
  decide (now < d)

/-- Inline validator of the `endDate` prompt:
`new Date(d).valueOf() > new Date(startDate).valueOf()`. -/
def validateEndDate (d startDate : Int) : Bool :=
  decide (startDate < d)

/-- Inline validator of the `penalty` prompt: reject when `penalty < 0`,
accept otherwise (so zero is accepted). -/
def validatePenalty (penalty : Int) : Bool :=
  if penalty < 0 then false else true

/-- Inline validator of the `threshold` prompt of the DYNAMIC branch:
reject when `threshold < 0 || threshold > 100`. -/
def validateThreshold (threshold : Int) : Bool :=
  if threshold < 0 ∨ 100 < threshold then false else true

/-- Inline validator of the `maxContributionWaitingTime` prompt of the FIXED
branch: reject when `threshold <= 0`. -/
def validateMaxContributionWaitingTime (threshold : Int) : Bool :=
  if threshold ≤ 0 then false else true

/-- The operator's final answers to the ceremony questions.  `none` models an
abandoned prompt (the destructured variable is `undefined`). -/
structure CeremonyAnswers where
  title : Option String
  description : Option String
  startDate : Option Int
  endDate : Option Int
  timeoutConfirmation : Option Bool
  penalty : Option Int
deriving DecidableEq, Repr

/-- The `CeremonyInputData` record returned by `askCeremonyInputData`.  Fields
keep the possibly-undefined values the source variables hold at the return
statement. -/
structure CeremonyInputData where
  title : Option String
  description : Option String
  startDate : Option Int
  endDate : Option Int
  timeoutMechanismType : CeremonyTimeoutType
  penalty : Option Int
deriving DecidableEq, Repr

/-- Embedding of `askCeremonyInputData`.  Control flow of the source:
check `!title || !description || !startDate` after the first prompt block,
check `!endDate` after the end-date prompt, map the toggle answer to
DYNAMIC (truthy) or FIXED (falsy, including an abandoned toggle), check
`penalty < 0` after the penalty prompt, then assemble the record.
Every check failure is `showError(GENERIC_ERRORS.GENERIC_DATA_INPUT, true)`,
which is fatal.  Date answers are `Date` objects in the source, which are
always truthy, so their falsiness is exactly absence. -/
def askCeremonyInputData (a : CeremonyAnswers) :
    Except GenericError CeremonyInputData :=
  if jsFalsyStr a.title = true ∨ jsFalsyStr a.description = true ∨
      a.startDate = none then
    Except.error GenericError.GENERIC_DATA_INPUT
  else if a.endDate = none then
    Except.error GenericError.GENERIC_DATA_INPUT
  else if jsLtNum a.penalty 0 = true then
    Except.error GenericError.GENERIC_DATA_INPUT
  else
    Except.ok
      { title := a.title
        description := a.description
        startDate := a.startDate
        endDate := a.endDate
        timeoutMechanismType :=
          if a.timeoutConfirmation.getD false then CeremonyTimeoutType.DYNAMIC
          else CeremonyTimeoutType.FIXED
        penalty := a.penalty }

/-- The operator's final answers to the circuit questions. -/
structure CircuitAnswers where
  description : Option String
  threshold : Option Int
  maxContributionWaitingTime : Option Int
deriving DecidableEq, Repr

/-- The `CircuitInputData` object returned by `askCircuitInputData`.  The
source returns one of two object literals, `{description, timeoutThreshold}`
or `{description, timeoutMaxContributionWaitingTime}`.  The outer `Option` of
each timeout field records whether the key appears in the returned object
literal at all; the inner `Option Int` is the JavaScript value under that key,
which can itself be `undefined` (`some none`) when the corresponding prompt
was abandoned. -/
structure CircuitInputData where
  description : Option String
  timeoutThreshold : Option (Option Int)
  timeoutMaxContributionWaitingTime : Option (Option Int)
deriving DecidableEq, Repr

/-- Embedding of `askCircuitInputData`.  The source initializes the local
variables `timeoutThreshold` and `timeoutMaxContributionWaitingTime` to `0`,
overwrites the branch-relevant one with the (possibly undefined) prompt
answer, raises a fatal `GENERIC_DATA_INPUT` inside the branch when the
answered value breaks its bound, re-checks `!description` and the
policy-specific `< 0` bound, and finally returns one of the two shapes of
object literal. -/
def askCircuitInputData (timeoutMechanismType : CeremonyTimeoutType)
    (a : CircuitAnswers) : Except GenericError CircuitInputData :=
  let timeoutThreshold : Option Int :=
    if timeoutMechanismType = CeremonyTimeoutType.DYNAMIC then a.threshold
    else some 0
  let timeoutMaxContributionWaitingTime : Option Int :=
    if timeoutMechanismType = CeremonyTimeoutType.FIXED then
      a.maxContributionWaitingTime
    else some 0
  if timeoutMechanismType = CeremonyTimeoutType.DYNAMIC ∧
      (jsLtNum a.threshold 0 = true ∨ jsGtNum a.threshold 100 = true) then
    Except.error GenericError.GENERIC_DATA_INPUT
  else if timeoutMechanismType = CeremonyTimeoutType.FIXED ∧
      jsLeNum a.maxContributionWaitingTime 0 = true then
    Except.error GenericError.GENERIC_DATA_INPUT
  else if jsFalsyStr a.description = true ∨
      (timeoutMechanismType = CeremonyTimeoutType.DYNAMIC ∧
        jsLtNum timeoutThreshold 0 = true) ∨
      (timeoutMechanismType = CeremonyTimeoutType.FIXED ∧
        jsLtNum timeoutMaxContributionWaitingTime 0 = true) then
    Except.error GenericError.GENERIC_DATA_INPUT
  else if timeoutMechanismType = CeremonyTimeoutType.DYNAMIC then
    Except.ok
      { description := a.description
        timeoutThreshold := some timeoutThreshold
        timeoutMaxContributionWaitingTime := none }
  else
    Except.ok
      { description := a.description
        timeoutThreshold := none
        timeoutMaxContributionWaitingTime :=
          some timeoutMaxContributionWaitingTime }

/-- Decimal value of a digit run. -/
def digitsVal : List Char → Nat :=
  List.foldl (fun acc c => acc * 10 + (c.toNat - 48)) 0

/-- Modelled from the spec: the helper extracting the power level from a
Powers of Tau filename lives in the CLI utils module, which is not among the
sources here.  The spec describes it as parsing a numeric suffix encoding from
a parameter filename, with the worked example that "pot12.ptau" has power 12:
the digits ending the part of the name before the extension.  A name with no
such digits yields -1 (no power level is parseable). -/
def extractPoTFromFilename (filename : String) : Int :=
  let base := filename.toList.takeWhile (fun c => c ≠ '.')
  let digits := (base.reverse.takeWhile Char.isDigit).reverse
  if digits.isEmpty then -1 else Int.ofNat (digitsVal digits)

/-- The choice list built by `askForPtauSelectionFromLocalDir`: one entry per
directory entry whose extracted power level is at least `suggestedPowers`;
other entries are skipped entirely. -/
def ptauChoices (ptausDirents : List String) (suggestedPowers : Int) :
    List String :=
  ptausDirents.filter (fun name => suggestedPowers ≤ extractPoTFromFilename name)

/-- Embedding of `askForPtauSelectionFromLocalDir`.  The operator's pick is an
index into the filtered choice list (`none` models an abandoned selection; an
empty choice list can produce no value either).  A falsy selected value
(`!ptau`, only possible for an empty filename) also fails.  Every failure is
the fatal `GENERIC_CIRCUIT_SELECTION` error.  The select prompt's own
validator re-checks the same power bound defensively, but every listed choice
already satisfies it. -/
def askForPtauSelectionFromLocalDir (ptausDirents : List String)
    (suggestedPowers : Int) (pick : Option Nat) : Except GenericError String :=
  let choices := ptauChoices ptausDirents suggestedPowers
  match pick.bind (fun i => choices.get? i) with
  | none => Except.error GenericError.GENERIC_CIRCUIT_SELECTION
  | some ptau =>
    if ptau.isEmpty then Except.error GenericError.GENERIC_CIRCUIT_SELECTION
    else Except.ok ptau

/-- The days figure shown by `askForCeremonySelection` for one ceremony
document: `Math.ceil(Math.abs(now - endDate) / (1000 * 60 * 60 * 24))`,
instants in milliseconds. -/
def daysLeftFigure (now endDate : Int) : Nat :=
  ((now - endDate).natAbs + (1000 * 60 * 60 * 24 - 1)) / (1000 * 60 * 60 * 24)

/-- The label shown next to the days figure:
`now - endDate < 0 ? "days left" : "days gone since closing"`. -/
def ceremonyDaysLabel (now endDate : Int) : String :=
  if now - endDate < 0 then "days left" else "days gone since closing"

/-- Claim C2: the ceremony builder's date validation accepts a pair of answered
dates exactly when the start date is strictly after submission time and the
end date is strictly after the start date; the boundary case of an end date
equal to the start date is rejected. -/
theorem C2_ceremony_date_validation (now start endDate : Int) :
    ((validateStartDate start now && validateEndDate endDate start) = true ↔
      (now < start ∧ start < endDate)) ∧
    validateEndDate start start = false := by
  constructor
  · simp [validateStartDate, validateEndDate]
  · simp [validateEndDate]

/-- Claim C3: the Powers of Tau choice list contains exactly the directory
entries whose extracted power level is at least the suggested threshold; when
the filtered list yields no selection, the function fails fatally with the
GENERIC_CIRCUIT_SELECTION error; in the spec's scenario with threshold 12 and
files pot10.ptau, pot12.ptau, pot14.ptau the eligible entries are pot12.ptau
and pot14.ptau. -/
theorem C3_ptau_choice_filter (ptausDirents : List String) (k : Int)
    (n : String) :
    (n ∈ ptauChoices ptausDirents k ↔
      n ∈ ptausDirents ∧ k ≤ extractPoTFromFilename n) ∧
    (ptauChoices ptausDirents k = [] →
      ∀ pick, askForPtauSelectionFromLocalDir ptausDirents k pick =
        Except.error GenericError.GENERIC_CIRCUIT_SELECTION) ∧
    ptauChoices ["pot10.ptau", "pot12.ptau", "pot14.ptau"] 12 =
      ["pot12.ptau", "pot14.ptau"] := by
  refine ⟨?_, ?_, by decide⟩
  · simp [ptauChoices, List.mem_filter]
  · intro hEmpty pick
    unfold askForPtauSelectionFromLocalDir
    cases pick <;> simp [hEmpty]

/-- Claim C4: the penalty prompt's validator accepts an answered penalty
exactly when it is non-negative (zero included, despite the message speaking
of a value greater than zero), and a negative answered penalty that survived
the inline validator is caught by the fatal post-check of the builder. -/
theorem C4_penalty_validation (p : Int) :
    (validatePenalty p = true ↔ 0 ≤ p) ∧
    validatePenalty 0 = true ∧
    (p < 0 → ∀ a : CeremonyAnswers, a.penalty = some p →
      askCeremonyInputData a = Except.error GenericError.GENERIC_DATA_INPUT) := by
  refine ⟨?_, by simp [validatePenalty], ?_⟩
  · unfold validatePenalty
    split_ifs with h <;> simp <;> omega
  · intro hp a ha
    unfold askCeremonyInputData
    split_ifs with h1 h2 h3 <;> try rfl
    exact absurd (by simp [jsLtNum, ha, hp]) h3

/-- Claim C5: when any of the title, description, start-date or end-date
answers is absent because the operator aborted the prompt, the ceremony
builder fails with the fatal GENERIC_DATA_INPUT error and never returns a
partially filled CeremonyInputData. -/
theorem C5_missing_ceremony_fields (a : CeremonyAnswers)
    (h : a.title = none ∨ a.description = none ∨ a.startDate = none ∨
      a.endDate = none) :
    askCeremonyInputData a = Except.error GenericError.GENERIC_DATA_INPUT := by
  unfold askCeremonyInputData
  split_ifs with h1 h2 h3 <;> try rfl
  exfalso
  rcases h with h | h | h | h
  · exact h1 (Or.inl (by simp [jsFalsyStr, h]))
  · exact h1 (Or.inr (Or.inl (by simp [jsFalsyStr, h])))
  · exact h1 (Or.inr (Or.inr h))
  · exact h2 h

/-- Claim C6: the title prompt rejects a candidate title as a duplicate
exactly when its normalized prefix is already among the known ceremony
prefixes — equivalently, the uniqueness predicate is false exactly on
membership of the extracted prefix — and empty titles are rejected as well;
the spec's scenario: against the known prefix my-ceremony, the title
"My Ceremony" is rejected while "Another Ceremony" is accepted. -/
theorem C6_title_uniqueness (t : String) (ps : List String) :
    ( isUniquePrefix t ps = false ↔ extractPrefix t ∈ ps) ∧
    (t ≠ "" → (validateTitle ps t = false ↔ extractPrefix t ∈ ps)) ∧
    validateTitle ps "" = false ∧
    validateTitle ["my-ceremony"] "My Ceremony" = false ∧
    validateTitle ["my-ceremony"] "Another Ceremony" = true := by
  refine ⟨?_, ?_, by simp [validateTitle], by decide, by decide⟩
  · simp [ isUniquePrefix, List.contains, List.elem_iff]
  · intro ht
    unfold validateTitle
    split_ifs with h1 h2
    · exfalso
      apply ht
      cases t with
      | mk l =>
        simp only [String.length] at h1
        have hl : l = [] := List.length_eq_zero.mp (by omega)
        subst hl
        rfl
    · simpa [List.contains, List.elem_iff] using h2
    · simpa [List.contains, List.elem_iff] using h2

/-- Characterization of the successful DYNAMIC runs of askCircuitInputData:
the function returns exactly when the threshold bound checks and the
description check pass, and then the result is the dynamic-shaped object. -/
theorem askCircuitInputData_DYNAMIC_ok_iff (a : CircuitAnswers)
    (r : CircuitInputData) :
    askCircuitInputData CeremonyTimeoutType.DYNAMIC a = Except.ok r ↔
      (jsLtNum a.threshold 0 = false ∧ jsGtNum a.threshold 100 = false ∧
        jsFalsyStr a.description = false ∧
        r = { description := a.description,
              timeoutThreshold := some a.threshold,
              timeoutMaxContributionWaitingTime := none }) := by
  simp only [askCircuitInputData]
  split_ifs with h1 h2 h3 h4 <;> simp_all <;>
    first
    | exact eq_comm
    | (intros; simp_all)

/-- Characterization of the successful FIXED runs of askCircuitInputData:
the function returns exactly when the waiting-time bound checks and the
description check pass, and then the result is the fixed-shaped object. -/
theorem askCircuitInputData_FIXED_ok_iff (a : CircuitAnswers)
    (r : CircuitInputData) :
    askCircuitInputData CeremonyTimeoutType.FIXED a = Except.ok r ↔
      (jsLeNum a.maxContributionWaitingTime 0 = false ∧
        jsFalsyStr a.description = false ∧
        jsLtNum a.maxContributionWaitingTime 0 = false ∧
        r = { description := a.description,
              timeoutThreshold := none,
              timeoutMaxContributionWaitingTime :=
                some a.maxContributionWaitingTime }) := by
  simp only [askCircuitInputData]
  split_ifs with h1 h2 h3 h4 <;> simp_all <;>
    first
    | exact eq_comm
    | (intros; simp_all)

/-- Claim C1: whenever askCircuitInputData returns, the returned object literal
has the shape dictated by the timeout mechanism: under DYNAMIC the
timeoutThreshold key is present (holding the answered value whenever the
prompt was answered) and no timeoutMaxContributionWaitingTime key exists,
under FIXED vice-versa; so exactly one of the two policy-specific fields is
populated in the returned object, never both and never neither. -/
theorem C1_circuit_policy_field_shape (tm : CeremonyTimeoutType)
    (a : CircuitAnswers) (r : CircuitInputData)
    (h : askCircuitInputData tm a = Except.ok r) :
    (tm = CeremonyTimeoutType.DYNAMIC →
      r.timeoutThreshold.isSome = true ∧
      r.timeoutMaxContributionWaitingTime = none ∧
      ∀ t : Int, a.threshold = some t → r.timeoutThreshold = some (some t)) ∧
    (tm = CeremonyTimeoutType.FIXED →
      r.timeoutMaxContributionWaitingTime.isSome = true ∧
      r.timeoutThreshold = none ∧
      ∀ m : Int, a.maxContributionWaitingTime = some m →
        r.timeoutMaxContributionWaitingTime = some (some m)) ∧
    ((r.timeoutThreshold.isSome = true ∧
        r.timeoutMaxContributionWaitingTime = none) ∨
      (r.timeoutMaxContributionWaitingTime.isSome = true ∧
        r.timeoutThreshold = none)) := by
  cases tm with
  | DYNAMIC =>
    rw [askCircuitInputData_DYNAMIC_ok_iff] at h
    obtain ⟨-, -, -, hr⟩ := h
    subst hr
    refine ⟨fun _ => ⟨by simp, by simp, fun t ht => by simp [ht]⟩,
      fun hc => absurd hc (by simp), Or.inl ⟨by simp, by simp⟩⟩
  | FIXED =>
    rw [askCircuitInputData_FIXED_ok_iff] at h
    obtain ⟨-, -, -, hr⟩ := h
    subst hr
    refine ⟨fun hc => absurd hc (by simp),
      fun _ => ⟨by simp, by simp, fun m hm => by simp [hm]⟩,
      Or.inr ⟨by simp, by simp⟩⟩

/-- Claim C7: under the FIXED mechanism, when the waiting-time prompt was
answered with value m, the builder fails with the fatal GENERIC_DATA_INPUT
error unless m is strictly positive, and whenever it returns, the
timeoutMaxContributionWaitingTime field of the returned CircuitInputData
holds that strictly positive answered value. -/
theorem C7_fixed_waiting_time_bound (a : CircuitAnswers) (m : Int)
    (hm : a.maxContributionWaitingTime = some m) :
    (m ≤ 0 → askCircuitInputData CeremonyTimeoutType.FIXED a =
      Except.error GenericError.GENERIC_DATA_INPUT) ∧
    ∀ r, askCircuitInputData CeremonyTimeoutType.FIXED a = Except.ok r →
      r.timeoutMaxContributionWaitingTime = some (some m) ∧ 0 < m := by
  constructor
  · intro hle
    have hc2 : jsLeNum a.maxContributionWaitingTime 0 = true := by
      rw [hm]
      simpa [jsLeNum] using hle
    simp [askCircuitInputData, hc2]
  · intro r hr
    rw [askCircuitInputData_FIXED_ok_iff] at hr
    obtain ⟨hle, -, -, hr⟩ := hr
    subst hr
    rw [hm] at hle
    simp only [jsLeNum, decide_eq_false_iff_not, not_le] at hle
    exact ⟨by simp [hm], hle⟩

/-- Claim C9: an abandoned penalty prompt raises no fatal error: the post
check fires only for answered values strictly below zero, an absent value does
not satisfy it, and the builder returns a CeremonyInputData whose penalty
field is undefined. -/
theorem C9_absent_penalty_not_fatal (a : CeremonyAnswers)
    (hT : jsFalsyStr a.title = false) (hD : jsFalsyStr a.description = false)
    (hS : a.startDate ≠ none) (hE : a.endDate ≠ none) (hP : a.penalty = none) :
    ∃ r, askCeremonyInputData a = Except.ok r ∧ r.penalty = none := by
  unfold askCeremonyInputData
  rw [if_neg (by simp [hT, hD, hS]), if_neg hE,
    if_neg (by rw [hP]; simp [jsLtNum])]
  exact ⟨_, rfl, hP⟩

/-- Claim C10: under the DYNAMIC mechanism, an abandoned threshold prompt
raises no fatal error — neither the bound check nor the final re-validation
fires on an undefined value — and the function returns a CircuitInputData
whose timeoutThreshold key holds the undefined value (and no
timeoutMaxContributionWaitingTime key). -/
theorem C10_absent_threshold_not_fatal (a : CircuitAnswers)
    (hD : jsFalsyStr a.description = false) (hT : a.threshold = none) :
    askCircuitInputData CeremonyTimeoutType.DYNAMIC a =
      Except.ok
        { description := a.description
          timeoutThreshold := some none
          timeoutMaxContributionWaitingTime := none } := by
  simp [askCircuitInputData, hT, hD, jsLtNum, jsGtNum, jsLeNum]

/-- Claim C8: the days figure displayed for a ceremony document is the
absolute distance between now and the document's end date in whole days
rounded up (characterized by the two inequalities pinning the ceiling), the
label is "days left" exactly when the end date is strictly in the future and
"days gone since closing" otherwise, and in particular an end date three days
ahead reads 3 "days left" while one three days past reads 3 "days gone since
closing". -/
theorem C8_days_remaining_display (now endDate : Int) :
    (now - endDate).natAbs ≤ daysLeftFigure now endDate * 86400000 ∧
    daysLeftFigure now endDate * 86400000 < (now - endDate).natAbs + 86400000 ∧
    (ceremonyDaysLabel now endDate = "days left" ↔ now < endDate) ∧
    (¬ now < endDate →
      ceremonyDaysLabel now endDate = "days gone since closing") ∧
    daysLeftFigure now (now + 259200000) = 3 ∧
    ceremonyDaysLabel now (now + 259200000) = "days left" ∧
    daysLeftFigure now (now - 259200000) = 3 ∧
    ceremonyDaysLabel now (now - 259200000) = "days gone since closing" := by
  refine ⟨?_, ?_, ?_, ?_, ?_, ?_, ?_, ?_⟩
  · unfold daysLeftFigure
    omega
  · unfold daysLeftFigure
    omega
  · unfold ceremonyDaysLabel
    split_ifs with h
    · exact ⟨fun _ => by omega, fun _ => rfl⟩
    · exact ⟨fun hc => absurd hc (by decide), fun hlt => absurd hlt (by omega)⟩
  · intro hge
    unfold ceremonyDaysLabel
    rw [if_neg (by omega)]
  · unfold daysLeftFigure
    omega
  · unfold ceremonyDaysLabel
    rw [if_pos (by omega)]
  · unfold daysLeftFigure
    omega
  · unfold ceremonyDaysLabel
    rw [if_neg (by omega)]

/-- Witness for C1 at a concrete DYNAMIC run with an answered threshold. -/
theorem C1_circuit_policy_field_shape_witness :
    (CircuitInputData.mk (some "d") (some (some 10)) none).timeoutThreshold.isSome
        = true ∧
    (CircuitInputData.mk (some "d")
        (some (some 10)) none).timeoutMaxContributionWaitingTime = none :=
  ⟨((C1_circuit_policy_field_shape CeremonyTimeoutType.DYNAMIC
      (CircuitAnswers.mk (some "d") (some 10) none)
      (CircuitInputData.mk (some "d") (some (some 10)) none) rfl).1 rfl).1,
    ((C1_circuit_policy_field_shape CeremonyTimeoutType.DYNAMIC
      (CircuitAnswers.mk (some "d") (some 10) none)
      (CircuitInputData.mk (some "d") (some (some 10)) none) rfl).1 rfl).2.1⟩

/-- Witness for C2 at concrete instants. -/
theorem C2_ceremony_date_validation_witness :
    (validateStartDate 5 0 && validateEndDate 10 5) = true :=
  (C2_ceremony_date_validation 0 5 10).1.mpr ⟨by decide, by decide⟩

/-- Witness for C3: pot12.ptau is listed for suggested powers 12. -/
theorem C3_ptau_choice_filter_witness :
    "pot12.ptau" ∈ ptauChoices ["pot10.ptau", "pot12.ptau", "pot14.ptau"] 12 :=
  (C3_ptau_choice_filter ["pot10.ptau", "pot12.ptau", "pot14.ptau"] 12
      "pot12.ptau").1.mpr ⟨by decide, by decide⟩

/-- Witness for C4: an answered penalty of -1 makes the builder fail fatally. -/
theorem C4_penalty_validation_witness :
    askCeremonyInputData
        (CeremonyAnswers.mk (some "t") (some "d") (some 1) (some 2) none
          (some (-1))) =
      Except.error GenericError.GENERIC_DATA_INPUT :=
  (C4_penalty_validation (-1)).2.2 (by norm_num)
    (CeremonyAnswers.mk (some "t") (some "d") (some 1) (some 2) none (some (-1)))
    rfl

/-- Witness for C5: an aborted title prompt is fatal. -/
theorem C5_missing_ceremony_fields_witness :
    askCeremonyInputData
        (CeremonyAnswers.mk none (some "d") (some 1) (some 2) none none) =
      Except.error GenericError.GENERIC_DATA_INPUT :=
  C5_missing_ceremony_fields
    (CeremonyAnswers.mk none (some "d") (some 1) (some 2) none none)
    (Or.inl rfl)

/-- Witness for C6: the spec's duplicate-title scenario. -/
theorem C6_title_uniqueness_witness :
    validateTitle ["my-ceremony"] "My Ceremony" = false :=
  (C6_title_uniqueness "My Ceremony" ["my-ceremony"]).2.2.2.1

/-- Witness for C7 at an answered waiting time of 5 minutes. -/
theorem C7_fixed_waiting_time_bound_witness :
    askCircuitInputData CeremonyTimeoutType.FIXED
        (CircuitAnswers.mk (some "d") none (some 5)) =
      Except.ok (CircuitInputData.mk (some "d") none (some (some 5))) ∧
    (CircuitInputData.mk (some "d")
        none (some (some 5))).timeoutMaxContributionWaitingTime = some (some 5) ∧
    (0 : Int) < 5 :=
  ⟨rfl,
    (C7_fixed_waiting_time_bound (CircuitAnswers.mk (some "d") none (some 5)) 5
      rfl).2 (CircuitInputData.mk (some "d") none (some (some 5))) rfl⟩

/-- Witness for C8 at now = 0 with an end date three days ahead. -/
theorem C8_days_remaining_display_witness :
    daysLeftFigure 0 (0 + 259200000) = 3 ∧
    ceremonyDaysLabel 0 (0 + 259200000) = "days left" :=
  ⟨(C8_days_remaining_display 0 (0 + 259200000)).2.2.2.2.1,
    (C8_days_remaining_display 0 (0 + 259200000)).2.2.2.2.2.1⟩

/-- Witness for C9: a run whose penalty prompt was abandoned returns normally. -/
theorem C9_absent_penalty_not_fatal_witness :
    ∃ r, askCeremonyInputData
        (CeremonyAnswers.mk (some "t") (some "d") (some 1) (some 2) (some true)
          none) =
      Except.ok r ∧ r.penalty = none :=
  C9_absent_penalty_not_fatal
    (CeremonyAnswers.mk (some "t") (some "d") (some 1) (some 2) (some true) none)
    rfl rfl (by simp) (by simp) rfl

/-- Witness for C10: a DYNAMIC run whose threshold prompt was abandoned. -/
theorem C10_absent_threshold_not_fatal_witness :
    askCircuitInputData CeremonyTimeoutType.DYNAMIC
        (CircuitAnswers.mk (some "d") none none) =
      Except.ok (CircuitInputData.mk (some "d") (some none) none) :=
  C10_absent_threshold_not_fatal (CircuitAnswers.mk (some "d") none none) rfl rfl
